import Mathlib

/-!
Shallow embedding of the Azure Speech sample clients
(src/STT/ft_api.py and src/STT/bt_api.py).

Modelling conventions:
- Python floats are modelled as rationals.  Rational arithmetic is
  expressed through the kernel-reducible helpers qAdd and qMul below
  (proved equal to + and * on ℚ), so that runs of the embedded code can
  be evaluated on concrete inputs.
- The environment is explicit: the sequence of HTTP responses the
  service would return is a function from the request index, and the
  filesystem check of os.path.isfile is a boolean input.
- time.sleep performs no work in the model; instead every duration that
  the code would pass to time.sleep is recorded, in order, in a list.
- Python string truthiness is modelled explicitly: a value read with
  dict.get is an Option, and the empty string is falsy.
-/

namespace STT

/-! ### Kernel-reducible rational arithmetic -/

/-- Addition on ℚ through mkRat; equal to + (see qAdd_eq) but reducible. -/
def qAdd (a b : ℚ) : ℚ := mkRat (a.num * b.den + b.num * a.den) (a.den * b.den)

/-- Multiplication on ℚ through mkRat; equal to * (see qMul_eq) but reducible. -/
def qMul (a b : ℚ) : ℚ := mkRat (a.num * b.num) (a.den * b.den)

theorem qMul_eq (a b : ℚ) : qMul a b = a * b := by
  rw [qMul, ← Rat.mkRat_mul_mkRat, Rat.mkRat_self, Rat.mkRat_self]

theorem qAdd_eq (a b : ℚ) : qAdd a b = a + b := by
  rw [qAdd, ← Rat.mkRat_add_mkRat _ _ a.den_nz b.den_nz, Rat.mkRat_self, Rat.mkRat_self]

/-! ### Python float() on finite decimal literals

float(retry_after) in ft_api.py parses the Retry-After header.  The model
below covers the finite decimal literals of Python float(): optional
surrounding whitespace, an optional sign, an integer and/or fractional
digit part, and an optional decimal exponent.  (The special spellings
inf/nan and digit underscores are not modelled.)  An input outside this
grammar raises ValueError in Python; here the parser returns none. -/

/-- Numeric value of a list of decimal digit characters. -/
def digitsToNat (cs : List Char) : Nat :=
  cs.foldl (fun a c => 10 * a + (c.toNat - 48)) 0

/-- Exponent suffix of a decimal literal: optional sign, then at least
one digit, nothing after. -/
def parseExponent : List Char → Option Int
  | [] => none
  | '+' :: cs => if cs ≠ [] ∧ cs.all Char.isDigit then some (digitsToNat cs : Int) else none
  | '-' :: cs => if cs ≠ [] ∧ cs.all Char.isDigit then some (-(digitsToNat cs : Int)) else none
  | cs => if cs.all Char.isDigit then some (digitsToNat cs : Int) else none

/-- Value of a decimal literal whose digits (integer and fractional part
concatenated) denote `n0`, with `flen` fractional digits and decimal
exponent `k`: n0 * 10 ^ (k - flen), built without ℚ arithmetic. -/
def decValue (n0 : Nat) (flen : Nat) (k : Int) : ℚ :=
  let e : Int := k - (flen : Int)
  if 0 ≤ e then mkRat ((n0 : Int) * (10 : Int) ^ e.toNat) 1
  else mkRat (n0 : Int) ((10 : Nat) ^ (-e).toNat)

/-- Unsigned decimal literal: digits, optionally a point with more digits,
optionally an exponent part.  At least one digit must be present. -/
def parseMantissa (cs : List Char) : Option ℚ :=
  let p := cs.span Char.isDigit
  match p.2 with
  | [] => if p.1 = [] then none else some (decValue (digitsToNat p.1) 0 0)
  | '.' :: rest2 =>
      let q := rest2.span Char.isDigit
      if p.1 = [] ∧ q.1 = [] then none
      else
        match q.2 with
        | [] => some (decValue (digitsToNat (p.1 ++ q.1)) q.1.length 0)
        | c :: rest4 =>
            if c = 'e' ∨ c = 'E' then
              (parseExponent rest4).map (fun k => decValue (digitsToNat (p.1 ++ q.1)) q.1.length k)
            else none
  | c :: rest2 =>
      if (c = 'e' ∨ c = 'E') ∧ p.1 ≠ [] then
        (parseExponent rest2).map (fun k => decValue (digitsToNat p.1) 0 k)
      else none

/-- Strip leading and trailing whitespace (float() accepts both). -/
def stripWs (cs : List Char) : List Char :=
  ((cs.dropWhile Char.isWhitespace).reverse.dropWhile Char.isWhitespace).reverse

/-- Model of Python float(s) restricted to finite decimal literals:
strip whitespace, optional sign, unsigned mantissa with optional
exponent.  Returns none where float() raises ValueError. -/
def pyFloat? (s : String) : Option ℚ :=
  match stripWs s.toList with
  | '+' :: rest => parseMantissa rest
  | '-' :: rest => (parseMantissa rest).map (fun q => -q)
  | cs => parseMantissa cs

/-! ### The resilient request executor (ft_api.py, post_with_retries) -/

/-- The retry policy of ft_api.py: MAX_RETRIES and RETRY_BACKOFF_SECONDS,
read from the environment at import time in the source. -/
structure RetryConfig where
  maxRetries : Nat
  retryBackoffSeconds : ℚ
deriving DecidableEq

/-- The part of an HTTP response post_with_retries inspects:
response.status_code and response.headers.get of the Retry-After key
(none when the header is absent). -/
structure Response where
  status_code : Nat
  retryAfter : Option String
deriving DecidableEq

/-- The exponential fallback RETRY_BACKOFF_SECONDS * (2 ** (attempt - 1))
of ft_api.py lines 156 and 158.  In Python 2 ** (attempt - 1) is exact
integer arithmetic, subsequently multiplied into a float. -/
def backoffWait (cfg : RetryConfig) (attempt : Nat) : ℚ :=
  qMul cfg.retryBackoffSeconds ((2 ^ (attempt - 1) : ℕ) : ℚ)

theorem backoffWait_eq (cfg : RetryConfig) (attempt : Nat) :
    backoffWait cfg attempt = cfg.retryBackoffSeconds * 2 ^ (attempt - 1) := by
  rw [backoffWait, qMul_eq]
  push_cast
  ring

/-- Lines 150-158 of ft_api.py: the wait before retry number `attempt`
(1-based, the value of the Python variable after the increment).
A present, truthy (nonempty) Retry-After header that parses as a float is
used as is; otherwise the exponential fallback. -/
def computeWait (cfg : RetryConfig) (retryAfter : Option String) (attempt : Nat) : ℚ :=
  match retryAfter with
  | some ra =>
      if ra ≠ "" then
        match pyFloat? ra with
        | some w => w
        | none => backoffWait cfg attempt
      else backoffWait cfg attempt
  | none => backoffWait cfg attempt

/-- Observable outcome of one post_with_retries call: the response the
function returns, how many POST requests it issued, and the durations
passed to time.sleep, in order. -/
structure RunResult where
  response : Response
  numRequests : Nat
  sleeps : List ℚ
deriving DecidableEq

/-- The while-True loop of post_with_retries (ft_api.py lines 140-161).
`responses i` is the response to the i-th POST (0-based).  `attempt` is
the Python attempt counter on entry to the iteration and `remaining` is
MAX_RETRIES - attempt, which bounds the recursion: the Python guard
`attempt + 1 > MAX_RETRIES` is exactly `remaining = 0`. -/
def postLoop (cfg : RetryConfig) (responses : Nat → Response) :
    Nat → Nat → Nat → RunResult
  | remaining, attempt, i =>
    if (responses i).status_code ≠ 429 then
      ⟨responses i, 1, []⟩
    else
      match remaining with
      | 0 => ⟨responses i, 1, []⟩
      | remaining' + 1 =>
          let rest := postLoop cfg responses remaining' (attempt + 1) (i + 1)
          ⟨rest.response, rest.numRequests + 1,
            computeWait cfg (responses i).retryAfter (attempt + 1) :: rest.sleeps⟩

/-- post_with_retries (ft_api.py lines 136-161): run the loop from
attempt 0 and request index 0. -/
def post_with_retries (cfg : RetryConfig) (responses : Nat → Response) : RunResult :=
  postLoop cfg responses cfg.maxRetries 0 0

/-! ### Source selection in main of ft_api.py (lines 249-258)

main dispatches on the configured audio source: an inline file when
AUDIO_FILE_PATH is truthy and names an existing file, else the public
URL when AUDIO_URL is truthy, else a message plus sys.exit(1).  Only the
first two branches ever perform network activity (they call
transcribe_inline_file or transcribe_from_url, each of which POSTs);
the exit branch returns before any request is built or sent. -/

/-- Which branch of main in ft_api.py runs.  configExit is the
`sys.exit(1)` branch, which issues no network request. -/
inductive TranscribeDispatch where
  | inlineFile
  | publicUrl
  | configExit
deriving DecidableEq

/-- The if/elif/else of main (ft_api.py lines 250-258).  `isFile` is the
value of os.path.isfile(AUDIO_FILE_PATH); Python string truthiness makes
the empty string falsy. -/
def mainDispatch (audioFilePath : String) (isFile : Bool) (audioUrl : String) :
    TranscribeDispatch :=
  if audioFilePath ≠ "" ∧ isFile = true then .inlineFile
  else if audioUrl ≠ "" then .publicUrl
  else .configExit

/-! ### The batch job poller (bt_api.py, monitor_until_done) -/

/-- Polling controls of bt_api.py: POLL_INTERVAL_SECONDS,
MAX_POLL_MINUTES and BACKOFF_MULTIPLIER, read from the environment. -/
structure PollConfig where
  pollIntervalSeconds : ℚ
  maxPollMinutes : Nat
  backoffMultiplier : ℚ
deriving DecidableEq

/-- The part of a fetched job record monitor_until_done inspects: the
optional "status" and "state" fields of the JSON body. -/
structure JobRecord where
  status : Option String
  state : Option String
deriving DecidableEq

/-- Python `a or b` on optional strings: a falsy left operand (absent
key or empty string) yields the right operand. -/
def pyOrStr (a b : Option String) : Option String :=
  match a with
  | some s => if s ≠ "" then some s else b
  | none => b

/-- Line 181 of bt_api.py: job.get("status") or job.get("state"). -/
def jobStatus (j : JobRecord) : Option String :=
  pyOrStr j.status j.state

/-- Line 185 of bt_api.py: status in ("Succeeded", "Failed", "Cancelled").
A missing status (Python None) is not in the tuple. -/
def isTerminal (v : Option String) : Bool :=
  v == some "Succeeded" || v == some "Failed" || v == some "Cancelled"

/-- Data interpolated into the TimeoutError message of bt_api.py line
192: the job id and MAX_POLL_MINUTES.  The elapsed wait is not part of
the message. -/
structure PollTimeout where
  jobId : String
  maxPollMinutes : Nat
deriving DecidableEq

/-- The f-string of bt_api.py line 192. -/
def PollTimeout.message (e : PollTimeout) : String :=
  "Job " ++ e.jobId ++ " did not complete within " ++ toString e.maxPollMinutes ++ " minutes."

/-- How one monitor_until_done call ends: a returned job record, a
raised TimeoutError, or (model artifact) exhaustion of the fuel that
bounds the unbounded while loop. -/
inductive PollOutcome where
  | done (job : JobRecord)
  | timeout (e : PollTimeout)
  | outOfFuel
deriving DecidableEq

/-- Observable trace of one monitor_until_done call: its outcome, the
number of get_job status fetches, the durations passed to time.sleep in
order, and the final value of the `waited` accumulator. -/
structure PollTrace where
  outcome : PollOutcome
  fetches : Nat
  sleeps : List ℚ
  finalWaited : ℚ
deriving DecidableEq

/-- The poll-interval ceiling 10 * 60 of bt_api.py line 190. -/
def pollCeiling : ℚ := ((10 * 60 : ℕ) : ℚ)

/-- The while loop of monitor_until_done (bt_api.py lines 179-192).
`jobs n` is get_job's parsed body for the n-th fetch (0-based); get_job
itself raises on HTTP failure before returning, which is outside this
loop model.  Each iteration checks `waited < MAX_POLL_MINUTES * 60`,
fetches, returns on a terminal status, otherwise sleeps `interval`, adds
it to `waited` and grows `interval` to min(interval * BACKOFF_MULTIPLIER,
10 * 60).  The source loop has no iteration bound of its own, so the
model bounds it with fuel. -/
def monitorLoop (cfg : PollConfig) (jobId : String) (jobs : Nat → JobRecord) :
    Nat → ℚ → ℚ → Nat → PollTrace
  | 0, waited, _, _ => ⟨.outOfFuel, 0, [], waited⟩
  | fuel + 1, waited, interval, n =>
    if waited < ((cfg.maxPollMinutes * 60 : ℕ) : ℚ) then
      if isTerminal (jobStatus (jobs n)) then ⟨.done (jobs n), 1, [], waited⟩
      else
        let rest := monitorLoop cfg jobId jobs fuel (qAdd waited interval)
          (min (qMul interval cfg.backoffMultiplier) pollCeiling) (n + 1)
        ⟨rest.outcome, rest.fetches + 1, interval :: rest.sleeps, rest.finalWaited⟩
    else ⟨.timeout ⟨jobId, cfg.maxPollMinutes⟩, 0, [], waited⟩

/-- monitor_until_done (bt_api.py lines 168-192): run the loop with
waited = 0 and interval = POLL_INTERVAL_SECONDS. -/
def monitor_until_done (cfg : PollConfig) (jobId : String) (jobs : Nat → JobRecord)
    (fuel : Nat) : PollTrace :=
  monitorLoop cfg jobId jobs fuel 0 cfg.pollIntervalSeconds 0

/-- The sequence of poll intervals from a given current interval:
the interval itself, then repeatedly min(previous * multiplier, 10 * 60),
exactly as line 190 of bt_api.py updates it. -/
def intervalFrom (cfg : PollConfig) (interval : ℚ) : Nat → ℚ
  | 0 => interval
  | k + 1 => min (qMul (intervalFrom cfg interval k) cfg.backoffMultiplier) pollCeiling

/-- The `waited` accumulator after k further sleeps, starting from a
given waited value and current interval, accumulated as line 189 does. -/
def waitedFrom (cfg : PollConfig) (waited interval : ℚ) : Nat → ℚ
  | 0 => waited
  | k + 1 => qAdd (waitedFrom cfg waited interval k) (intervalFrom cfg interval k)

/-- The sequence of poll intervals of a whole session: the configured
initial interval, then the capped exponential growth. -/
def intervalSeq (cfg : PollConfig) : Nat → ℚ :=
  intervalFrom cfg cfg.pollIntervalSeconds

/-- Value of the `waited` accumulator before the k-th fetch (0-based)
of a whole session: the sum of the first k intervals. -/
def waitedBefore (cfg : PollConfig) : Nat → ℚ :=
  waitedFrom cfg 0 cfg.pollIntervalSeconds

/-! ### Result files of a succeeded batch job (bt_api.py) -/

/-- One entry of the file listing of a finished job (bt_api.py lines
236-240 read name, kind and a content url). -/
structure FileEntry where
  name : String
  kind : String
  contentUrl : Option String
deriving DecidableEq

/-- The part of the GET .../files response that list_files and main
inspect: response.ok, response.status_code, and the optional "values"
and "files" lists of the JSON body. -/
structure FilesResponse where
  ok : Bool
  status_code : Nat
  values : Option (List FileEntry)
  files : Option (List FileEntry)
deriving DecidableEq

/-- list_files (bt_api.py lines 143-154): on a non-ok response it prints
and raise_for_status() raises (modelled as Except.error carrying the
status code); otherwise it returns the parsed body. -/
def list_files (resp : FilesResponse) : Except Nat FilesResponse :=
  if resp.ok = true then .ok resp else .error resp.status_code

/-- Line 228 of bt_api.py:
files_payload.get("values") or files_payload.get("files") or [].
Python list truthiness: an absent key or an empty list falls through. -/
def extractFiles (values files : Option (List FileEntry)) : List FileEntry :=
  match values with
  | some l =>
      if l ≠ [] then l
      else
        match files with
        | some l2 => if l2 ≠ [] then l2 else []
        | none => []
  | none =>
      match files with
      | some l2 => if l2 ≠ [] then l2 else []
      | none => []

/-- Outcome of resolving the files of a Succeeded job in main (bt_api.py
lines 225-246): either the enumeration call failed (the raised HTTPError
propagates out of main), or main proceeds with the extracted artifact
list — the empty list taking the benign "No files listed" branch at
line 230. -/
inductive ResolveOutcome where
  | enumerationError (status_code : Nat)
  | succeeded (artifacts : List FileEntry)
deriving DecidableEq

/-- The file-resolution step main performs once monitor_until_done has
returned a Succeeded job: list_files, then extract the list. -/
def resolveSucceeded (resp : FilesResponse) : ResolveOutcome :=
  match list_files resp with
  | .error s => .enumerationError s
  | .ok payload => .succeeded (extractFiles payload.values payload.files)

/-! ## Lemmas about the request executor -/

theorem pyFloat?_empty : pyFloat? "" = none := by decide

theorem postLoop_not429 (cfg : RetryConfig) (responses : Nat → Response)
    (remaining attempt i : Nat) (h : (responses i).status_code ≠ 429) :
    postLoop cfg responses remaining attempt i = ⟨responses i, 1, []⟩ := by
  cases remaining <;> simp [postLoop, h]

theorem postLoop_429_zero (cfg : RetryConfig) (responses : Nat → Response)
    (attempt i : Nat) (h : (responses i).status_code = 429) :
    postLoop cfg responses 0 attempt i = ⟨responses i, 1, []⟩ := by
  simp [postLoop, h]

theorem postLoop_429_succ (cfg : RetryConfig) (responses : Nat → Response)
    (r attempt i : Nat) (h : (responses i).status_code = 429) :
    postLoop cfg responses (r + 1) attempt i =
      ⟨(postLoop cfg responses r (attempt + 1) (i + 1)).response,
       (postLoop cfg responses r (attempt + 1) (i + 1)).numRequests + 1,
       computeWait cfg (responses i).retryAfter (attempt + 1)
         :: (postLoop cfg responses r (attempt + 1) (i + 1)).sleeps⟩ := by
  simp [postLoop, h]

theorem postLoop_numRequests_le (cfg : RetryConfig) (responses : Nat → Response) :
    ∀ remaining attempt i,
      (postLoop cfg responses remaining attempt i).numRequests ≤ remaining + 1 := by
  intro remaining
  induction remaining with
  | zero =>
      intro attempt i
      by_cases h : (responses i).status_code = 429
      · rw [postLoop_429_zero cfg responses attempt i h]
      · rw [postLoop_not429 cfg responses 0 attempt i h]
  | succ r ih =>
      intro attempt i
      by_cases h : (responses i).status_code = 429
      · rw [postLoop_429_succ cfg responses r attempt i h]
        exact Nat.succ_le_succ (ih (attempt + 1) (i + 1))
      · rw [postLoop_not429 cfg responses (r + 1) attempt i h]
        exact Nat.le_add_left 1 (r + 1)

theorem computeWait_none (cfg : RetryConfig) (attempt : Nat) :
    computeWait cfg none attempt = backoffWait cfg attempt := rfl

theorem computeWait_parsed (cfg : RetryConfig) (attempt : Nat) {ra : String} {w : ℚ}
    (hp : pyFloat? ra = some w) : computeWait cfg (some ra) attempt = w := by
  have hne : ra ≠ "" := by
    intro e
    rw [e, pyFloat?_empty] at hp
    exact Option.noConfusion hp
  simp [computeWait, hne, hp]

theorem computeWait_fallback (cfg : RetryConfig) (attempt : Nat) {ra : String}
    (hp : pyFloat? ra = none) :
    computeWait cfg (some ra) attempt = backoffWait cfg attempt := by
  by_cases he : ra = "" <;> simp [computeWait, he, hp]

theorem postLoop_sleeps_get? (cfg : RetryConfig) (responses : Nat → Response) :
    ∀ remaining attempt i k,
      k < (postLoop cfg responses remaining attempt i).sleeps.length →
      (postLoop cfg responses remaining attempt i).sleeps.get? k
        = some (computeWait cfg (responses (i + k)).retryAfter (attempt + k + 1)) := by
  intro remaining
  induction remaining with
  | zero =>
      intro attempt i k hk
      exfalso
      by_cases h : (responses i).status_code = 429
      · rw [postLoop_429_zero cfg responses attempt i h] at hk
        exact Nat.not_lt_zero k hk
      · rw [postLoop_not429 cfg responses 0 attempt i h] at hk
        exact Nat.not_lt_zero k hk
  | succ r ih =>
      intro attempt i k hk
      by_cases h : (responses i).status_code = 429
      · rw [postLoop_429_succ cfg responses r attempt i h] at hk ⊢
        cases k with
        | zero => simp
        | succ j =>
            have hj : j < (postLoop cfg responses r (attempt + 1) (i + 1)).sleeps.length :=
              Nat.lt_of_succ_lt_succ hk
            have hrec := ih (attempt + 1) (i + 1) j hj
            have harg1 : i + 1 + j = i + (j + 1) := by omega
            have harg2 : attempt + 1 + j + 1 = attempt + (j + 1) + 1 := by omega
            rw [harg1, harg2] at hrec
            show (postLoop cfg responses r (attempt + 1) (i + 1)).sleeps.get? j
              = some (computeWait cfg (responses (i + (j + 1))).retryAfter
                  (attempt + (j + 1) + 1))
            exact hrec
      · exfalso
        rw [postLoop_not429 cfg responses (r + 1) attempt i h] at hk
        exact Nat.not_lt_zero k hk

theorem post_with_retries_sleeps_get (cfg : RetryConfig) (responses : Nat → Response)
    (k : Nat) (hk : k < (post_with_retries cfg responses).sleeps.length) :
    (post_with_retries cfg responses).sleeps.get ⟨k, hk⟩
      = computeWait cfg (responses k).retryAfter (k + 1) := by
  have h1 := postLoop_sleeps_get? cfg responses cfg.maxRetries 0 0 k hk
  have h2 : (postLoop cfg responses cfg.maxRetries 0 0).sleeps.get? k
      = some ((postLoop cfg responses cfg.maxRetries 0 0).sleeps.get ⟨k, hk⟩) :=
    List.get?_eq_get hk
  rw [h2] at h1
  have h3 := Option.some.inj h1
  show (postLoop cfg responses cfg.maxRetries 0 0).sleeps.get ⟨k, hk⟩ = _
  rw [h3]
  norm_num

theorem postLoop_first_not429 (cfg : RetryConfig) (responses : Nat → Response) :
    ∀ j remaining attempt i, j ≤ remaining →
      (∀ d, d < j → (responses (i + d)).status_code = 429) →
      (responses (i + j)).status_code ≠ 429 →
      (postLoop cfg responses remaining attempt i).response = responses (i + j) ∧
      (postLoop cfg responses remaining attempt i).numRequests = j + 1 ∧
      (postLoop cfg responses remaining attempt i).sleeps.length = j := by
  intro j
  induction j with
  | zero =>
      intro remaining attempt i _ _ hj2
      rw [postLoop_not429 cfg responses remaining attempt i (by simpa using hj2)]
      simp
  | succ n ih =>
      intro remaining attempt i hle h429 hj2
      obtain ⟨r, rfl⟩ : ∃ r, remaining = r + 1 := ⟨remaining - 1, by omega⟩
      have h0 : (responses i).status_code = 429 := by
        have := h429 0 (Nat.succ_pos n)
        simpa using this
      rw [postLoop_429_succ cfg responses r attempt i h0]
      have hrec := ih r (attempt + 1) (i + 1) (by omega)
        (fun d hd => by
          have := h429 (d + 1) (by omega)
          simpa [Nat.add_assoc, Nat.add_comm 1 d] using this)
        (by
          have : i + 1 + n = i + (n + 1) := by omega
          rw [this]
          exact hj2)
      refine ⟨?_, ?_, ?_⟩
      · have : i + 1 + n = i + (n + 1) := by omega
        rw [← this]
        exact hrec.1
      · simp [hrec.2.1]
      · simp [hrec.2.2]

theorem postLoop_all429 (cfg : RetryConfig) (responses : Nat → Response)
    (hall : ∀ d, (responses d).status_code = 429) :
    ∀ remaining attempt i,
      (postLoop cfg responses remaining attempt i).response = responses (i + remaining) ∧
      (postLoop cfg responses remaining attempt i).numRequests = remaining + 1 := by
  intro remaining
  induction remaining with
  | zero =>
      intro attempt i
      rw [postLoop_429_zero cfg responses attempt i (hall i)]
      simp
  | succ r ih =>
      intro attempt i
      rw [postLoop_429_succ cfg responses r attempt i (hall i)]
      have hrec := ih (attempt + 1) (i + 1)
      constructor
      · have : i + 1 + r = i + (r + 1) := by omega
        rw [← this]
        exact hrec.1
      · simp [hrec.2]

/-! ## Claims about the request executor -/

/-- C1: for every rate-limited response the executor handles (that is,
for every duration it sleeps), a Retry-After header that parses as a
valid non-negative duration is honored exactly, and an absent or
unparseable header falls back to RETRY_BACKOFF_SECONDS * 2 ^ (attempt - 1),
where the k-th sleep (0-based) belongs to retry attempt k + 1. -/
theorem c1_retry_after_honored (cfg : RetryConfig) (responses : Nat → Response) (k : Nat)
    (hk : k < (post_with_retries cfg responses).sleeps.length) :
    (∀ ra w, (responses k).retryAfter = some ra → pyFloat? ra = some w → 0 ≤ w →
        (post_with_retries cfg responses).sleeps.get ⟨k, hk⟩ = w) ∧
    (((responses k).retryAfter = none ∨
        (∃ ra, (responses k).retryAfter = some ra ∧ pyFloat? ra = none)) →
      (post_with_retries cfg responses).sleeps.get ⟨k, hk⟩
        = cfg.retryBackoffSeconds * 2 ^ k) := by
  have hget := post_with_retries_sleeps_get cfg responses k hk
  have hfall : backoffWait cfg (k + 1) = cfg.retryBackoffSeconds * 2 ^ k := by
    rw [backoffWait_eq]
    simp
  constructor
  · intro ra w hra hparse _
    rw [hget, hra]
    exact computeWait_parsed cfg (k + 1) hparse
  · intro habs
    rcases habs with hnone | ⟨ra, hra, hparse⟩
    · rw [hget, hnone, computeWait_none]
      exact hfall
    · rw [hget, hra, computeWait_fallback cfg (k + 1) hparse]
      exact hfall

/-- C1 witness: with MAX_RETRIES = 3: every response 429 with
Retry-After "7", the first sleep is exactly 7 seconds. -/
theorem c1_retry_after_honored_witness :
    (post_with_retries ⟨3, mkRat 2 1⟩ (fun _ => ⟨429, some "7"⟩)).sleeps.get ⟨0, by decide⟩
      = mkRat 7 1 :=
  (c1_retry_after_honored ⟨3, mkRat 2 1⟩ (fun _ => ⟨429, some "7"⟩) 0 (by decide)).1
    "7" (mkRat 7 1) rfl (by decide) (by decide)

/-- C2 counterexample: with maximum attempts MAX_RETRIES = 1 and every
response rate-limited, the executor issues 2 outbound requests, not at
most 1: the claim "at most N requests" fails on the code, which issues
the initial request plus up to N retries. -/
theorem c2_counterexample :
    (post_with_retries ⟨1, mkRat 2 1⟩ (fun _ => ⟨429, none⟩)).numRequests = 2 ∧
    ¬ (post_with_retries ⟨1, mkRat 2 1⟩ (fun _ => ⟨429, none⟩)).numRequests ≤ 1 := by
  decide

/-- C2 amended: with maximum attempts MAX_RETRIES = N the executor
issues at most N + 1 outbound requests (the initial request plus at most
N retries), and when no response carries a Retry-After hint the sleep
durations, which follow the exponential backoff with multiplier 2, are
monotonically non-decreasing across successive attempts. -/
theorem c2_request_bound_and_monotone (cfg : RetryConfig) (responses : Nat → Response)
    (hb : 0 < cfg.retryBackoffSeconds)
    (hhint : ∀ i, (responses i).retryAfter = none) :
    (post_with_retries cfg responses).numRequests ≤ cfg.maxRetries + 1 ∧
    ∀ (j k : Nat) (hj : j < (post_with_retries cfg responses).sleeps.length)
      (hk : k < (post_with_retries cfg responses).sleeps.length), j ≤ k →
      (post_with_retries cfg responses).sleeps.get ⟨j, hj⟩
        ≤ (post_with_retries cfg responses).sleeps.get ⟨k, hk⟩ := by
  constructor
  · exact postLoop_numRequests_le cfg responses cfg.maxRetries 0 0
  · intro j k hj hk hjk
    have hgj : (post_with_retries cfg responses).sleeps.get ⟨j, hj⟩
        = cfg.retryBackoffSeconds * 2 ^ j := by
      rw [post_with_retries_sleeps_get cfg responses j hj, hhint j, computeWait_none,
        backoffWait_eq]
      simp
    have hgk : (post_with_retries cfg responses).sleeps.get ⟨k, hk⟩
        = cfg.retryBackoffSeconds * 2 ^ k := by
      rw [post_with_retries_sleeps_get cfg responses k hk, hhint k, computeWait_none,
        backoffWait_eq]
      simp
    rw [hgj, hgk]
    exact mul_le_mul_of_nonneg_left (pow_le_pow_right₀ one_le_two hjk) hb.le

/-- C2 witness: MAX_RETRIES = 2, all responses 429 without hints: at
most 3 requests and the first sleep is at most the second. -/
theorem c2_request_bound_and_monotone_witness :
    (post_with_retries ⟨2, mkRat 2 1⟩ (fun _ => ⟨429, none⟩)).numRequests ≤ 3 ∧
    (post_with_retries ⟨2, mkRat 2 1⟩ (fun _ => ⟨429, none⟩)).sleeps.get ⟨0, by decide⟩
      ≤ (post_with_retries ⟨2, mkRat 2 1⟩ (fun _ => ⟨429, none⟩)).sleeps.get ⟨1, by decide⟩ :=
  ⟨(c2_request_bound_and_monotone ⟨2, mkRat 2 1⟩ (fun _ => ⟨429, none⟩) (by decide)
      (fun _ => rfl)).1,
   (c2_request_bound_and_monotone ⟨2, mkRat 2 1⟩ (fun _ => ⟨429, none⟩) (by decide)
      (fun _ => rfl)).2 0 1 (by decide) (by decide) (by decide)⟩

/-- C3: the executor returns the first non-rate-limit response
immediately — at that point it has issued exactly j + 1 requests and
slept exactly j times, j being the number of preceding 429 responses —
and when every response is 429 it returns the last received response
(the MAX_RETRIES-th retry, 0-based index MAX_RETRIES) as a value after
MAX_RETRIES + 1 requests. -/
theorem c3_non429_immediate_exhaustion_last (cfg : RetryConfig) (responses : Nat → Response) :
    (∀ j, j ≤ cfg.maxRetries →
      (∀ d, d < j → (responses d).status_code = 429) →
      (responses j).status_code ≠ 429 →
      (post_with_retries cfg responses).response = responses j ∧
      (post_with_retries cfg responses).numRequests = j + 1 ∧
      (post_with_retries cfg responses).sleeps.length = j) ∧
    ((∀ d, (responses d).status_code = 429) →
      (post_with_retries cfg responses).response = responses cfg.maxRetries ∧
      (post_with_retries cfg responses).numRequests = cfg.maxRetries + 1) := by
  constructor
  · intro j hle h429 hj2
    have := postLoop_first_not429 cfg responses j cfg.maxRetries 0 0 hle
      (fun d hd => by simpa using h429 d hd) (by simpa using hj2)
    simpa [post_with_retries] using this
  · intro hall
    have := postLoop_all429 cfg responses hall cfg.maxRetries 0 0
    simpa [post_with_retries] using this

/-- C3 witness: one 429 followed by a 200: the 200 is returned after 2
requests and 1 sleep. -/
theorem c3_non429_immediate_exhaustion_last_witness :
    (post_with_retries ⟨3, mkRat 2 1⟩
        (fun n => if n = 0 then ⟨429, none⟩ else ⟨200, none⟩)).response = ⟨200, none⟩ ∧
    (post_with_retries ⟨3, mkRat 2 1⟩
        (fun n => if n = 0 then ⟨429, none⟩ else ⟨200, none⟩)).numRequests = 2 ∧
    (post_with_retries ⟨3, mkRat 2 1⟩
        (fun n => if n = 0 then ⟨429, none⟩ else ⟨200, none⟩)).sleeps.length = 1 :=
  (c3_non429_immediate_exhaustion_last ⟨3, mkRat 2 1⟩
      (fun n => if n = 0 then ⟨429, none⟩ else ⟨200, none⟩)).1
    1 (by decide) (by decide) (by decide)

/-- C9 counterexample: a Retry-After header of "-1" parses to the
negative float -1, which the executor passes to time.sleep unchanged:
no clamping to a minimum positive value takes place.  (In Python,
time.sleep raises ValueError on a negative duration.) -/
theorem c9_counterexample :
    (post_with_retries ⟨1, mkRat 2 1⟩ (fun _ => ⟨429, some "-1"⟩)).sleeps
        = [mkRat (-1) 1] ∧
    mkRat (-1) 1 < 0 := by
  decide

/-- C9 amended: the executor performs no clamping of the computed wait.
An unparseable Retry-After value falls back to the exponential value
(so a malformed hint does not crash the wait computation), and that
fallback is positive whenever the configured base backoff is positive;
but a hint that parses — including to zero or a negative number — is
passed to time.sleep exactly as parsed. -/
theorem c9_no_clamping (cfg : RetryConfig) (attempt : Nat) (ra : String) :
    (pyFloat? ra = none →
      computeWait cfg (some ra) attempt = cfg.retryBackoffSeconds * 2 ^ (attempt - 1)) ∧
    (0 < cfg.retryBackoffSeconds → 0 < cfg.retryBackoffSeconds * 2 ^ (attempt - 1)) ∧
    (∀ w, pyFloat? ra = some w → computeWait cfg (some ra) attempt = w) := by
  refine ⟨?_, ?_, ?_⟩
  · intro hparse
    rw [computeWait_fallback cfg attempt hparse, backoffWait_eq]
  · intro hb
    positivity
  · intro w hparse
    exact computeWait_parsed cfg attempt hparse

/-- C9 witness: an unparseable hint "oops" at retry attempt 1 with base
backoff 2 falls back to 2 * 2 ^ 0. -/
theorem c9_no_clamping_witness :
    computeWait ⟨3, mkRat 2 1⟩ (some "oops") 1
      = (⟨3, mkRat 2 1⟩ : RetryConfig).retryBackoffSeconds * 2 ^ (1 - 1) :=
  (c9_no_clamping ⟨3, mkRat 2 1⟩ 1 "oops").1 (by decide)

/-! ## Lemmas about the job poller -/

theorem pollCeiling_nonneg : (0 : ℚ) ≤ pollCeiling := by decide

theorem monitorLoop_zero (cfg : PollConfig) (jobId : String) (jobs : Nat → JobRecord)
    (waited interval : ℚ) (n : Nat) :
    monitorLoop cfg jobId jobs 0 waited interval n = ⟨.outOfFuel, 0, [], waited⟩ := rfl

theorem monitorLoop_deadline (cfg : PollConfig) (jobId : String) (jobs : Nat → JobRecord)
    (fuel : Nat) (waited interval : ℚ) (n : Nat)
    (h1 : ¬ waited < ((cfg.maxPollMinutes * 60 : ℕ) : ℚ)) :
    monitorLoop cfg jobId jobs (fuel + 1) waited interval n
      = ⟨.timeout ⟨jobId, cfg.maxPollMinutes⟩, 0, [], waited⟩ := by
  unfold monitorLoop
  rw [if_neg h1]

theorem monitorLoop_terminal (cfg : PollConfig) (jobId : String) (jobs : Nat → JobRecord)
    (fuel : Nat) (waited interval : ℚ) (n : Nat)
    (h1 : waited < ((cfg.maxPollMinutes * 60 : ℕ) : ℚ))
    (h2 : isTerminal (jobStatus (jobs n)) = true) :
    monitorLoop cfg jobId jobs (fuel + 1) waited interval n
      = ⟨.done (jobs n), 1, [], waited⟩ := by
  unfold monitorLoop
  rw [if_pos h1, if_pos h2]

theorem monitorLoop_step (cfg : PollConfig) (jobId : String) (jobs : Nat → JobRecord)
    (fuel : Nat) (waited interval : ℚ) (n : Nat)
    (h1 : waited < ((cfg.maxPollMinutes * 60 : ℕ) : ℚ))
    (h2 : isTerminal (jobStatus (jobs n)) = false) :
    monitorLoop cfg jobId jobs (fuel + 1) waited interval n
      = ⟨(monitorLoop cfg jobId jobs fuel (qAdd waited interval)
            (min (qMul interval cfg.backoffMultiplier) pollCeiling) (n + 1)).outcome,
         (monitorLoop cfg jobId jobs fuel (qAdd waited interval)
            (min (qMul interval cfg.backoffMultiplier) pollCeiling) (n + 1)).fetches + 1,
         interval :: (monitorLoop cfg jobId jobs fuel (qAdd waited interval)
            (min (qMul interval cfg.backoffMultiplier) pollCeiling) (n + 1)).sleeps,
         (monitorLoop cfg jobId jobs fuel (qAdd waited interval)
            (min (qMul interval cfg.backoffMultiplier) pollCeiling) (n + 1)).finalWaited⟩ := by
  conv_lhs => rw [monitorLoop]
  rw [if_pos h1, if_neg (by simp [h2])]

theorem monitorLoop_sleeps_invariant (cfg : PollConfig) (jobId : String)
    (jobs : Nat → JobRecord) (hm : 1 ≤ cfg.backoffMultiplier) :
    ∀ fuel (waited interval : ℚ) (n : Nat), 0 ≤ interval → interval ≤ pollCeiling →
      (∀ s ∈ (monitorLoop cfg jobId jobs fuel waited interval n).sleeps, s ≤ pollCeiling) ∧
      List.Chain' (· ≤ ·) (monitorLoop cfg jobId jobs fuel waited interval n).sleeps ∧
      ((monitorLoop cfg jobId jobs fuel waited interval n).sleeps = [] ∨
        (monitorLoop cfg jobId jobs fuel waited interval n).sleeps.head? = some interval) := by
  intro fuel
  induction fuel with
  | zero =>
      intro waited interval n _ _
      rw [monitorLoop_zero]
      simp
  | succ f ih =>
      intro waited interval n h0 hc
      by_cases h1 : waited < ((cfg.maxPollMinutes * 60 : ℕ) : ℚ)
      · by_cases h2 : isTerminal (jobStatus (jobs n)) = true
        · rw [monitorLoop_terminal cfg jobId jobs f waited interval n h1 h2]
          simp
        · have h2' : isTerminal (jobStatus (jobs n)) = false := by simpa using h2
          rw [monitorLoop_step cfg jobId jobs f waited interval n h1 h2']
          have h0' : 0 ≤ min (qMul interval cfg.backoffMultiplier) pollCeiling := by
            refine le_min ?_ pollCeiling_nonneg
            rw [qMul_eq]
            exact mul_nonneg h0 (le_trans zero_le_one hm)
          have hc' : min (qMul interval cfg.backoffMultiplier) pollCeiling ≤ pollCeiling :=
            min_le_right _ _
          have hmono : interval ≤ min (qMul interval cfg.backoffMultiplier) pollCeiling := by
            refine le_min ?_ hc
            rw [qMul_eq]
            exact le_mul_of_one_le_right h0 hm
          obtain ⟨hb, hch, hh⟩ := ih (qAdd waited interval)
            (min (qMul interval cfg.backoffMultiplier) pollCeiling) (n + 1) h0' hc'
          refine ⟨?_, ?_, ?_⟩
          · intro s hs
            rcases List.mem_cons.mp hs with rfl | hs'
            · exact hc
            · exact hb s hs'
          · show List.Chain' (· ≤ ·) (interval :: (monitorLoop cfg jobId jobs f _ _ _).sleeps)
            rw [List.chain'_cons']
            refine ⟨?_, hch⟩
            intro y hy
            rcases hh with he | hh'
            · rw [he] at hy
              simp at hy
            · rw [hh'] at hy
              have : y = min (qMul interval cfg.backoffMultiplier) pollCeiling := by
                simpa using hy.symm
              rw [this]
              exact hmono
          · right
            rfl
      · rw [monitorLoop_deadline cfg jobId jobs f waited interval n h1]
        simp

theorem monitorLoop_finalWaited (cfg : PollConfig) (jobId : String)
    (jobs : Nat → JobRecord) :
    ∀ fuel (waited interval : ℚ) (n : Nat),
      (monitorLoop cfg jobId jobs fuel waited interval n).finalWaited
        = waited + ((monitorLoop cfg jobId jobs fuel waited interval n).sleeps).sum := by
  intro fuel
  induction fuel with
  | zero =>
      intro waited interval n
      rw [monitorLoop_zero]
      simp
  | succ f ih =>
      intro waited interval n
      by_cases h1 : waited < ((cfg.maxPollMinutes * 60 : ℕ) : ℚ)
      · by_cases h2 : isTerminal (jobStatus (jobs n)) = true
        · rw [monitorLoop_terminal cfg jobId jobs f waited interval n h1 h2]
          simp
        · have h2' : isTerminal (jobStatus (jobs n)) = false := by simpa using h2
          rw [monitorLoop_step cfg jobId jobs f waited interval n h1 h2']
          show (monitorLoop cfg jobId jobs f _ _ _).finalWaited
            = waited + (interval :: (monitorLoop cfg jobId jobs f _ _ _).sleeps).sum
          rw [ih (qAdd waited interval)
            (min (qMul interval cfg.backoffMultiplier) pollCeiling) (n + 1), qAdd_eq]
          rw [List.sum_cons]
          ring
      · rw [monitorLoop_deadline cfg jobId jobs f waited interval n h1]
        simp

theorem monitorLoop_timeout_elapsed (cfg : PollConfig) (jobId : String)
    (jobs : Nat → JobRecord) :
    ∀ fuel (waited interval : ℚ) (n : Nat) (e : PollTimeout),
      (monitorLoop cfg jobId jobs fuel waited interval n).outcome = .timeout e →
      e = ⟨jobId, cfg.maxPollMinutes⟩ ∧
      ((cfg.maxPollMinutes * 60 : ℕ) : ℚ)
        ≤ (monitorLoop cfg jobId jobs fuel waited interval n).finalWaited := by
  intro fuel
  induction fuel with
  | zero =>
      intro waited interval n e h
      rw [monitorLoop_zero] at h
      simp at h
  | succ f ih =>
      intro waited interval n e h
      by_cases h1 : waited < ((cfg.maxPollMinutes * 60 : ℕ) : ℚ)
      · by_cases h2 : isTerminal (jobStatus (jobs n)) = true
        · rw [monitorLoop_terminal cfg jobId jobs f waited interval n h1 h2] at h
          simp at h
        · have h2' : isTerminal (jobStatus (jobs n)) = false := by simpa using h2
          rw [monitorLoop_step cfg jobId jobs f waited interval n h1 h2'] at h ⊢
          exact ih (qAdd waited interval)
            (min (qMul interval cfg.backoffMultiplier) pollCeiling) (n + 1) e h
      · rw [monitorLoop_deadline cfg jobId jobs f waited interval n h1] at h ⊢
        have he : PollOutcome.timeout ⟨jobId, cfg.maxPollMinutes⟩ = .timeout e := h
        have : (⟨jobId, cfg.maxPollMinutes⟩ : PollTimeout) = e := by
          cases he
          rfl
        exact ⟨this.symm, le_of_not_lt h1⟩

theorem monitorLoop_done_terminal (cfg : PollConfig) (jobId : String)
    (jobs : Nat → JobRecord) :
    ∀ fuel (waited interval : ℚ) (n : Nat) (j : JobRecord),
      (monitorLoop cfg jobId jobs fuel waited interval n).outcome = .done j →
      isTerminal (jobStatus j) = true := by
  intro fuel
  induction fuel with
  | zero =>
      intro waited interval n j h
      rw [monitorLoop_zero] at h
      simp at h
  | succ f ih =>
      intro waited interval n j h
      by_cases h1 : waited < ((cfg.maxPollMinutes * 60 : ℕ) : ℚ)
      · by_cases h2 : isTerminal (jobStatus (jobs n)) = true
        · rw [monitorLoop_terminal cfg jobId jobs f waited interval n h1 h2] at h
          have hd : PollOutcome.done (jobs n) = .done j := h
          cases hd
          exact h2
        · have h2' : isTerminal (jobStatus (jobs n)) = false := by simpa using h2
          rw [monitorLoop_step cfg jobId jobs f waited interval n h1 h2'] at h
          exact ih (qAdd waited interval)
            (min (qMul interval cfg.backoffMultiplier) pollCeiling) (n + 1) j h
      · rw [monitorLoop_deadline cfg jobId jobs f waited interval n h1] at h
        simp at h

theorem intervalFrom_shift (cfg : PollConfig) (interval : ℚ) :
    ∀ k, intervalFrom cfg (min (qMul interval cfg.backoffMultiplier) pollCeiling) k
      = intervalFrom cfg interval (k + 1) := by
  intro k
  induction k with
  | zero => rfl
  | succ j ih => simp [intervalFrom, ih]

theorem waitedFrom_shift (cfg : PollConfig) (waited interval : ℚ) :
    ∀ k, waitedFrom cfg (qAdd waited interval)
        (min (qMul interval cfg.backoffMultiplier) pollCeiling) k
      = waitedFrom cfg waited interval (k + 1) := by
  intro k
  induction k with
  | zero => rfl
  | succ j ih => simp [waitedFrom, ih, intervalFrom_shift]

theorem monitorLoop_done_after (cfg : PollConfig) (jobId : String) (jobs : Nat → JobRecord) :
    ∀ j fuel (waited interval : ℚ) (n : Nat), j < fuel →
      (∀ k, k < j → isTerminal (jobStatus (jobs (n + k))) = false) →
      isTerminal (jobStatus (jobs (n + j))) = true →
      (∀ k, k ≤ j → waitedFrom cfg waited interval k < ((cfg.maxPollMinutes * 60 : ℕ) : ℚ)) →
      (monitorLoop cfg jobId jobs fuel waited interval n).outcome = .done (jobs (n + j)) ∧
      (monitorLoop cfg jobId jobs fuel waited interval n).fetches = j + 1 ∧
      (monitorLoop cfg jobId jobs fuel waited interval n).sleeps.length = j := by
  intro j
  induction j with
  | zero =>
      intro fuel waited interval n hf hrun hterm hdl
      obtain ⟨f, rfl⟩ : ∃ f, fuel = f + 1 := ⟨fuel - 1, by omega⟩
      have h1 : waited < ((cfg.maxPollMinutes * 60 : ℕ) : ℚ) := hdl 0 (by omega)
      rw [monitorLoop_terminal cfg jobId jobs f waited interval n h1 hterm]
      simp
  | succ j ih =>
      intro fuel waited interval n hf hrun hterm hdl
      obtain ⟨f, rfl⟩ : ∃ f, fuel = f + 1 := ⟨fuel - 1, by omega⟩
      have h1 : waited < ((cfg.maxPollMinutes * 60 : ℕ) : ℚ) := hdl 0 (by omega)
      have h2 : isTerminal (jobStatus (jobs n)) = false := by
        have := hrun 0 (by omega)
        simpa using this
      rw [monitorLoop_step cfg jobId jobs f waited interval n h1 h2]
      have hidx : n + 1 + j = n + (j + 1) := by omega
      have hrec := ih f (qAdd waited interval)
        (min (qMul interval cfg.backoffMultiplier) pollCeiling) (n + 1)
        (by omega)
        (fun k hk => by
          have := hrun (k + 1) (by omega)
          have hx : n + 1 + k = n + (k + 1) := by omega
          rw [hx]
          exact this)
        (by
          rw [hidx]
          exact hterm)
        (fun k hk => by
          rw [waitedFrom_shift]
          exact hdl (k + 1) (by omega))
      refine ⟨?_, ?_, ?_⟩
      · show (monitorLoop cfg jobId jobs f _ _ _).outcome = .done (jobs (n + (j + 1)))
        rw [← hidx]
        exact hrec.1
      · show (monitorLoop cfg jobId jobs f _ _ _).fetches + 1 = (j + 1) + 1
        rw [hrec.2.1]
      · show (interval :: (monitorLoop cfg jobId jobs f _ _ _).sleeps).length = j + 1
        simp [hrec.2.2]

/-! ## Claims about the job poller -/

/-- C4 counterexample: a session with backoff multiplier 3/2 > 1 whose
configured initial interval is 700 s sleeps 700 s first — above the
600 s ceiling — and then 600 s, so the sleep sequence is neither
bounded by the ceiling nor non-decreasing. -/
theorem c4_counterexample :
    (monitor_until_done ⟨mkRat 700 1, 60, mkRat 3 2⟩ "j"
        (fun _ => ⟨some "Running", none⟩) 3).sleeps
      = [mkRat 700 1, mkRat 600 1, mkRat 600 1] ∧
    pollCeiling < mkRat 700 1 ∧ mkRat 600 1 < mkRat 700 1 := by
  decide

/-- C4 amended: provided the configured initial interval is non-negative
and does not itself exceed the 10-minute (600 s) ceiling, every sleep of
a session with backoff multiplier > 1 is at most the ceiling and the
sleep durations are monotonically non-decreasing, regardless of how many
non-terminal polls occur. -/
theorem c4_interval_bounded_and_monotone (cfg : PollConfig) (jobId : String)
    (jobs : Nat → JobRecord) (fuel : Nat) (hm : 1 < cfg.backoffMultiplier)
    (h0 : 0 ≤ cfg.pollIntervalSeconds) (hc : cfg.pollIntervalSeconds ≤ pollCeiling) :
    (∀ s ∈ (monitor_until_done cfg jobId jobs fuel).sleeps, s ≤ pollCeiling) ∧
    List.Pairwise (· ≤ ·) (monitor_until_done cfg jobId jobs fuel).sleeps := by
  obtain ⟨hb, hch, _⟩ := monitorLoop_sleeps_invariant cfg jobId jobs hm.le fuel 0
    cfg.pollIntervalSeconds 0 h0 hc
  exact ⟨hb, List.chain'_iff_pairwise.mp hch⟩

/-- C4 witness: initial interval 60 s, multiplier 3/2, three Running
polls: the first sleep is within the ceiling and the sleep list is
sorted. -/
theorem c4_interval_bounded_and_monotone_witness :
    mkRat 60 1 ≤ pollCeiling ∧
    List.Pairwise (· ≤ ·)
      (monitor_until_done ⟨mkRat 60 1, 180, mkRat 3 2⟩ "j"
        (fun _ => ⟨some "Running", none⟩) 3).sleeps :=
  ⟨(c4_interval_bounded_and_monotone ⟨mkRat 60 1, 180, mkRat 3 2⟩ "j"
      (fun _ => ⟨some "Running", none⟩) 3 (by decide) (by decide) (by decide)).1
     (mkRat 60 1) (by decide),
   (c4_interval_bounded_and_monotone ⟨mkRat 60 1, 180, mkRat 3 2⟩ "j"
      (fun _ => ⟨some "Running", none⟩) 3 (by decide) (by decide) (by decide)).2⟩

/-- C5: if the first 3 fetches are non-terminal, the 4th reports
Succeeded, and the accumulated wait stays below the deadline before each
of the 4 fetches, the poller returns the 4th job record, performs
exactly 4 fetches, and sleeps exactly 3 times (never after the terminal
fetch). -/
theorem c5_running3_succeeded4 (cfg : PollConfig) (jobId : String)
    (jobs : Nat → JobRecord) (fuel : Nat) (hf : 4 ≤ fuel)
    (hrun : ∀ k, k < 3 → isTerminal (jobStatus (jobs k)) = false)
    (hsucc : jobStatus (jobs 3) = some "Succeeded")
    (hdl : ∀ k, k ≤ 3 → waitedBefore cfg k < ((cfg.maxPollMinutes * 60 : ℕ) : ℚ)) :
    (monitor_until_done cfg jobId jobs fuel).outcome = .done (jobs 3) ∧
    (monitor_until_done cfg jobId jobs fuel).fetches = 4 ∧
    (monitor_until_done cfg jobId jobs fuel).sleeps.length = 3 := by
  have hterm : isTerminal (jobStatus (jobs (0 + 3))) = true := by
    show isTerminal (jobStatus (jobs 3)) = true
    rw [hsucc]
    rfl
  have h := monitorLoop_done_after cfg jobId jobs 3 fuel 0 cfg.pollIntervalSeconds 0
    (by omega)
    (fun k hk => by
      rw [Nat.zero_add]
      exact hrun k hk)
    hterm
    hdl
  exact ⟨h.1, h.2.1, h.2.2⟩

/-- C5 witness: default-like controls (60 s initial interval, 180 min
deadline, multiplier 3/2) and a job Running for 3 polls then Succeeded:
4 fetches, 3 sleeps. -/
theorem c5_running3_succeeded4_witness :
    (monitor_until_done ⟨mkRat 60 1, 180, mkRat 3 2⟩ "job-1"
        (fun n => if n < 3 then ⟨some "Running", none⟩ else ⟨some "Succeeded", none⟩)
        6).outcome = .done ⟨some "Succeeded", none⟩ ∧
    (monitor_until_done ⟨mkRat 60 1, 180, mkRat 3 2⟩ "job-1"
        (fun n => if n < 3 then ⟨some "Running", none⟩ else ⟨some "Succeeded", none⟩)
        6).fetches = 4 ∧
    (monitor_until_done ⟨mkRat 60 1, 180, mkRat 3 2⟩ "job-1"
        (fun n => if n < 3 then ⟨some "Running", none⟩ else ⟨some "Succeeded", none⟩)
        6).sleeps.length = 3 :=
  c5_running3_succeeded4 ⟨mkRat 60 1, 180, mkRat 3 2⟩ "job-1"
    (fun n => if n < 3 then ⟨some "Running", none⟩ else ⟨some "Succeeded", none⟩)
    6 (by omega) (by decide) (by decide) (by decide)

/-- C6 counterexample: two sessions for the same job id "job-1" and the
same 1-minute deadline, with initial intervals 45 s and 50 s and
multiplier 2, time out with accumulated elapsed waits 135 s and 150 s
respectively, yet raise the exact same TimeoutError (hence the same
message): the raised error reports the configured deadline, not the
total elapsed wait, which cannot be recovered from it. -/
theorem c6_counterexample :
    (monitor_until_done ⟨mkRat 45 1, 1, mkRat 2 1⟩ "job-1"
        (fun _ => ⟨some "Running", none⟩) 5).outcome
      = .timeout ⟨"job-1", 1⟩ ∧
    (monitor_until_done ⟨mkRat 50 1, 1, mkRat 2 1⟩ "job-1"
        (fun _ => ⟨some "Running", none⟩) 5).outcome
      = .timeout ⟨"job-1", 1⟩ ∧
    (monitor_until_done ⟨mkRat 45 1, 1, mkRat 2 1⟩ "job-1"
        (fun _ => ⟨some "Running", none⟩) 5).finalWaited = mkRat 135 1 ∧
    (monitor_until_done ⟨mkRat 50 1, 1, mkRat 2 1⟩ "job-1"
        (fun _ => ⟨some "Running", none⟩) 5).finalWaited = mkRat 150 1 := by
  decide

/-- C6 amended: when the poller raises its timeout error, the error
reports the job identifier and the configured deadline in minutes (its
message is the deadline-based f-string, which does not carry the actual
elapsed wait), and the error is raised only when the accumulated elapsed
wait is at least the deadline. -/
theorem c6_timeout_reports (cfg : PollConfig) (jobId : String) (jobs : Nat → JobRecord)
    (fuel : Nat) (e : PollTimeout)
    (h : (monitor_until_done cfg jobId jobs fuel).outcome = .timeout e) :
    e.jobId = jobId ∧ e.maxPollMinutes = cfg.maxPollMinutes ∧
    e.message = "Job " ++ jobId ++ " did not complete within "
      ++ toString cfg.maxPollMinutes ++ " minutes." ∧
    ((cfg.maxPollMinutes * 60 : ℕ) : ℚ) ≤ (monitor_until_done cfg jobId jobs fuel).sleeps.sum := by
  obtain ⟨he, hw⟩ := monitorLoop_timeout_elapsed cfg jobId jobs fuel 0
    cfg.pollIntervalSeconds 0 e h
  have hsum := monitorLoop_finalWaited cfg jobId jobs fuel 0 cfg.pollIntervalSeconds 0
  refine ⟨by rw [he], by rw [he], by rw [he]; rfl, ?_⟩
  have hw2 : ((cfg.maxPollMinutes * 60 : ℕ) : ℚ)
      ≤ (monitor_until_done cfg jobId jobs fuel).finalWaited := hw
  have hs2 : (monitor_until_done cfg jobId jobs fuel).finalWaited
      = 0 + (monitor_until_done cfg jobId jobs fuel).sleeps.sum := hsum
  rw [hs2] at hw2
  simpa using hw2

/-- C6 witness: the 45 s session of the counterexample indeed reports
job id "job-1" and the 1-minute deadline, with elapsed ≥ 60 s. -/
theorem c6_timeout_reports_witness :
    (⟨"job-1", 1⟩ : PollTimeout).jobId = "job-1" ∧
    (⟨"job-1", 1⟩ : PollTimeout).maxPollMinutes = 1 ∧
    (⟨"job-1", 1⟩ : PollTimeout).message
      = "Job " ++ "job-1" ++ " did not complete within " ++ toString 1 ++ " minutes." ∧
    (((1 : Nat) * 60 : ℕ) : ℚ)
      ≤ (monitor_until_done ⟨mkRat 45 1, 1, mkRat 2 1⟩ "job-1"
          (fun _ => ⟨some "Running", none⟩) 6).sleeps.sum :=
  c6_timeout_reports ⟨mkRat 45 1, 1, mkRat 2 1⟩ "job-1"
    (fun _ => ⟨some "Running", none⟩) 6 ⟨"job-1", 1⟩ (by decide)

/-- C10: a fetched record whose status is absent or outside the set
Succeeded/Failed/Cancelled is treated as non-terminal: the terminal test
holds exactly on those three strings, a non-terminal fetch under the
deadline sleeps the current interval, grows it by the multiplier capped
at the ceiling, accumulates the wait and continues with the next fetch,
and any record the poller returns passes the terminal test. -/
theorem c10_nonterminal_continues (cfg : PollConfig) (jobId : String)
    (jobs : Nat → JobRecord) (fuel : Nat) :
    (∀ v, isTerminal v = true ↔
        (v = some "Succeeded" ∨ v = some "Failed" ∨ v = some "Cancelled")) ∧
    (∀ j, (monitor_until_done cfg jobId jobs fuel).outcome = .done j →
        isTerminal (jobStatus j) = true) ∧
    (∀ f (waited interval : ℚ) (n : Nat),
        waited < ((cfg.maxPollMinutes * 60 : ℕ) : ℚ) →
        isTerminal (jobStatus (jobs n)) = false →
        monitorLoop cfg jobId jobs (f + 1) waited interval n
          = ⟨(monitorLoop cfg jobId jobs f (qAdd waited interval)
                (min (qMul interval cfg.backoffMultiplier) pollCeiling) (n + 1)).outcome,
             (monitorLoop cfg jobId jobs f (qAdd waited interval)
                (min (qMul interval cfg.backoffMultiplier) pollCeiling) (n + 1)).fetches + 1,
             interval :: (monitorLoop cfg jobId jobs f (qAdd waited interval)
                (min (qMul interval cfg.backoffMultiplier) pollCeiling) (n + 1)).sleeps,
             (monitorLoop cfg jobId jobs f (qAdd waited interval)
                (min (qMul interval cfg.backoffMultiplier) pollCeiling) (n + 1)).finalWaited⟩) := by
  refine ⟨?_, ?_, ?_⟩
  · intro v
    cases v with
    | none => simp [isTerminal]
    | some s =>
        simp only [isTerminal, Bool.or_eq_true, beq_iff_eq, Option.some.injEq]
        tauto
  · intro j h
    exact monitorLoop_done_terminal cfg jobId jobs fuel 0 cfg.pollIntervalSeconds 0 j h
  · intro f waited interval n h1 h2
    exact monitorLoop_step cfg jobId jobs f waited interval n h1 h2

/-- C10 witness: a job record carrying status "Succeeded" returned by a
concrete run passes the terminal test. -/
theorem c10_nonterminal_continues_witness :
    isTerminal (jobStatus ⟨some "Succeeded", none⟩) = true :=
  (c10_nonterminal_continues ⟨mkRat 60 1, 180, mkRat 3 2⟩ "j"
      (fun _ => ⟨some "Succeeded", none⟩) 1).2.1
    ⟨some "Succeeded", none⟩ (by decide)

/-! ## Claims about source selection and result files -/

/-- C7 counterexample: with both an inline file (existing) and a remote
URL configured, main of ft_api.py dispatches to the inline upload — it
does not fail with a precondition error. -/
theorem c7_counterexample :
    mainDispatch "audio.wav" true "https://example.com/a.wav" = .inlineFile ∧
    TranscribeDispatch.inlineFile ≠ .configExit := by
  decide

/-- C7 amended: when both an inline audio source and a remote audio
locator are supplied, the inline source silently takes precedence and is
used (no error); supplying neither source is reported to the caller with
exit code 1 before any network request is issued (the exit branch never
reaches the request-building code). -/
theorem c7_source_precedence (path : String) (isF : Bool) (url : String) :
    (path ≠ "" → isF = true → mainDispatch path isF url = .inlineFile) ∧
    ((path = "" ∨ isF = false) → url = "" → mainDispatch path isF url = .configExit) := by
  constructor
  · intro h1 h2
    simp [mainDispatch, h1, h2]
  · intro h1 h2
    have hno : ¬ (path ≠ "" ∧ isF = true) := by
      rcases h1 with h | h
      · intro hx
        exact hx.1 h
      · intro hx
        rw [h] at hx
        exact Bool.false_ne_true hx.2
    simp [mainDispatch, hno, h2]

/-- C7 witness: both sources set dispatches inline; neither set exits. -/
theorem c7_source_precedence_witness :
    mainDispatch "a.wav" true "https://u" = .inlineFile ∧
    mainDispatch "" false "" = .configExit :=
  ⟨(c7_source_precedence "a.wav" true "https://u").1 (by decide) rfl,
   (c7_source_precedence "" false "").2 (Or.inl rfl) rfl⟩

/-- C8: for a Succeeded job, an artifact-listing response that is ok and
carries an empty list resolves to the successful outcome with an empty
artifact list, while a failed listing call resolves to an enumeration
error carrying the HTTP status — and these two outcomes are distinct
values. -/
theorem c8_empty_distinct_from_error (resp : FilesResponse) :
    (resp.ok = true → extractFiles resp.values resp.files = [] →
      resolveSucceeded resp = .succeeded []) ∧
    (resp.ok = false → resolveSucceeded resp = .enumerationError resp.status_code) ∧
    (∀ s fs, ResolveOutcome.succeeded fs ≠ .enumerationError s) := by
  refine ⟨?_, ?_, ?_⟩
  · intro hok hempty
    simp [resolveSucceeded, list_files, hok, hempty]
  · intro hok
    simp [resolveSucceeded, list_files, hok]
  · intro s fs h
    exact ResolveOutcome.noConfusion h

/-- C8 witness: an ok listing whose "values" is the empty list resolves
to Succeeded with no artifacts; a 500 listing resolves to an enumeration
error. -/
theorem c8_empty_distinct_from_error_witness :
    resolveSucceeded ⟨true, 200, some [], none⟩ = .succeeded [] ∧
    resolveSucceeded ⟨false, 500, some [], none⟩ = .enumerationError 500 :=
  ⟨(c8_empty_distinct_from_error ⟨true, 200, some [], none⟩).1 rfl (by decide),
   (c8_empty_distinct_from_error ⟨false, 500, some [], none⟩).2.1 rfl⟩

end STT
